import Mathlib

/-!
Shallow embedding of the A2A task server (task store, lifecycle manager and
JSON-RPC router) of this repository.

Sources embedded:
- src/server/task_manager.py   (InMemoryTaskManager: upsert_task, on_get_task)
- src/my_agents/openai_sdk/task_manager.py (AgentTaskManager: _get_user_query, on_send_task)
- src/server/server.py         (A2AServer: _handle_request, _create_response)
- src/models/json_rpc.py       (JSONRPCError, JSONRPCResponse, InternalError)
- src/models/request.py        (SendTaskRequest, GetTaskRequest, responses)

Python object aliasing matters for the read-path claims, so message histories
live in an explicit heap (a list of message lists addressed by index): a Task
record holds a heap address for its history, `model_copy` copies the record but
not the address, and list slicing allocates a fresh address.  Fallible Python
code (exceptions) is embedded with `Except`.
-/

namespace A2A

/-- JSON values, used for the wire-format envelopes produced by the server
(`model_dump` output serialized by `jsonable_encoder`). -/
inductive JValue where
  | null : JValue
  | str (s : String) : JValue
  | num (n : Int) : JValue
  | bool (b : Bool) : JValue
  | arr (xs : List JValue) : JValue
  | obj (members : List (String × JValue)) : JValue

/-- True when a JSON value is the literal null. -/
def JValue.isNull : JValue → Bool
  | .null => true
  | _ => false

/-- Modelled from the spec: models/task.py is not under src/.  A Part is
currently always a TextPart carrying a `text` string (spec section 3). -/
structure TextPart where
  text : String
  deriving Repr, DecidableEq

/-- Modelled from the spec: models/task.py is not under src/.  One turn of a
conversation: a `role` string (only "user" and "agent" occur) and an ordered
sequence of parts (spec section 3). -/
structure Message where
  role : String
  parts : List TextPart
  deriving Repr, DecidableEq

/-- Modelled from the spec: models/task.py is not under src/.  TaskState enum
(spec section 3); only SUBMITTED → COMPLETED is ever performed by the code. -/
inductive TaskState where
  | SUBMITTED
  | WORKING
  | COMPLETED
  | FAILED
  | CANCELED
  deriving Repr, DecidableEq

/-- Modelled from the spec: models/task.py is not under src/.  TaskStatus
carries a `state` enum (the optional timestamp of spec section 3 is never read
or written by the embedded code and is omitted). -/
structure TaskStatus where
  state : TaskState
  deriving Repr, DecidableEq

/-- Modelled from the spec: models/task.py is not under src/.  A Task record:
caller-supplied `id`, optional `sessionId` (never set by upsert_task), current
`status`, and its message history.  The history is a mutable Python list, so
the record stores a heap address (`historyRef`) rather than the list itself:
pydantic `model_copy` copies the record and shares the address. -/
structure Task where
  id : String
  sessionId : Option String
  status : TaskStatus
  historyRef : Nat
  deriving Repr, DecidableEq

/-- Modelled from the spec: models/task.py is not under src/.  Parameters of
"tasks/send": task id, session id, and the user message. -/
structure TaskSendParams where
  id : String
  sessionId : String
  message : Message
  deriving Repr, DecidableEq

/-- Modelled from the spec: models/task.py is not under src/.  Parameters of
"tasks/get": task id and the optional history-length limit. -/
structure TaskQueryParams where
  id : String
  historyLength : Option Nat
  deriving Repr, DecidableEq

/-- A JSON-RPC message id: int, string, or null (models/json_rpc.py, field
`id : int | str | None`); `none` embeds null. -/
inductive RpcId where
  | num (n : Int) : RpcId
  | str (s : String) : RpcId
  deriving Repr, DecidableEq

/-- models/json_rpc.py JSONRPCError: required `code : int`, required
`message : str`, optional `data` (default None). -/
structure JSONRPCError where
  code : Int
  message : String
  data : Option JValue

/-- models/request.py SendTaskRequest (method "tasks/send"). -/
structure SendTaskRequest where
  id : Option RpcId
  params : TaskSendParams
  deriving Repr, DecidableEq

/-- models/request.py GetTaskRequest (method "tasks/get"). -/
structure GetTaskRequest where
  id : Option RpcId
  params : TaskQueryParams
  deriving Repr, DecidableEq

/-- models/request.py SendTaskResponse: JSONRPCResponse with `result : Task | None`. -/
structure SendTaskResponse where
  id : Option RpcId
  result : Option Task
  error : Option JSONRPCError

/-- models/request.py GetTaskResponse: JSONRPCResponse with `result : Task | None`. -/
structure GetTaskResponse where
  id : Option RpcId
  result : Option Task
  error : Option JSONRPCError

/-- Python exceptions that the embedded code can raise. -/
inductive PyErr where
  | indexError
  | validationError (msg : String)
  | agentError (msg : String)
  deriving Repr, DecidableEq

/-- The heap of live message-history lists; an address is an index. -/
abbrev Heap := List (List Message)

/-- Read a history list from the heap (addresses produced by the code are
always in bounds; the default is never reached on reachable states). -/
def heapGet (h : Heap) (ref : Nat) : List Message :=
  List.getD h ref []

/-- Overwrite a history list in the heap (in-place Python list mutation). -/
def heapSet (h : Heap) (ref : Nat) (v : List Message) : Heap :=
  List.set h ref v

/-- Allocate a fresh history list, returning its address. -/
def heapAlloc (h : Heap) (v : List Message) : Nat × Heap :=
  (List.length h, h ++ [v])

/-- Python dict lookup on an insertion-ordered association list
(`self.tasks.get(id)`). -/
def dictGet {α : Type} (l : List (String × α)) (k : String) : Option α :=
  match l with
  | [] => none
  | (k', v) :: t => if k' = k then some v else dictGet t k

/-- Python dict write (`self.tasks[id] = task`): replace in place if the key
exists, otherwise append. -/
def dictSet {α : Type} (l : List (String × α)) (k : String) (v : α) : List (String × α) :=
  match l with
  | [] => [(k, v)]
  | (k', v') :: t => if k' = k then (k, v) :: t else (k', v') :: dictSet t k v

/-- The mutable state of an InMemoryTaskManager: the heap of history lists and
the task dictionary (`self.tasks`).  All operations below run under the single
store lock, so they are embedded as sequential state transformers. -/
structure MState where
  heap : Heap
  tasks : List (String × Task)

/-- The history of a task as currently stored, read through its heap address. -/
def historyView (s : MState) (t : Task) : List Message :=
  heapGet s.heap t.historyRef

/-- src/server/task_manager.py InMemoryTaskManager.upsert_task: create a task
with status SUBMITTED and history `[params.message]` when the id is absent,
otherwise append the message to the existing task's history list in place. -/
def upsert_task (params : TaskSendParams) (s : MState) : Task × MState :=
  match dictGet s.tasks params.id with
  | none =>
      let (ref, heap') := heapAlloc s.heap [params.message]
      let task : Task := ⟨params.id, none, ⟨TaskState.SUBMITTED⟩, ref⟩
      (task, ⟨heap', dictSet s.tasks params.id task⟩)
  | some task =>
      (task, ⟨heapSet s.heap task.historyRef
                (heapGet s.heap task.historyRef ++ [params.message]), s.tasks⟩)

/-- Python slice `l[-n:]` for a non-negative n: for n = 0 it is `l[0:]`, the
whole list; otherwise the last `min n (length l)` elements. -/
def pySliceLast (n : Nat) (l : List Message) : List Message :=
  if n = 0 then l else List.drop (List.length l - n) l

/-- The literal error dict the source passes for a missing task:
`GetTaskResponse(id=request.id, error=\x7b"message": "Task not found"\x7d)`. -/
def notFoundErrorDict : List (String × JValue) :=
  [("message", JValue.str "Task not found")]

/-- Pydantic validation of a dict against models/json_rpc.py JSONRPCError:
`code : int` and `message : str` are required (no defaults), `data` defaults
to None.  A missing required field raises ValidationError. -/
def validateJSONRPCError (d : List (String × JValue)) : Except String JSONRPCError :=
  match List.lookup "code" d, List.lookup "message" d with
  | some (JValue.num c), some (JValue.str m) =>
      Except.ok ⟨c, m, List.lookup "data" d⟩
  | none, _ =>
      Except.error "1 validation error for JSONRPCError: code Field required"
  | _, _ =>
      Except.error "validation error for JSONRPCError"

/-- src/server/task_manager.py InMemoryTaskManager.on_get_task: look up the
task; if absent, construct a GetTaskResponse whose error is the literal dict
above (pydantic validates it against JSONRPCError at construction); otherwise
take a shallow `model_copy` (new record, shared history address) and, when a
history limit is given, slice the history (slicing allocates a fresh list). -/
def on_get_task (request : GetTaskRequest) (s : MState) :
    Except PyErr GetTaskResponse × MState :=
  let query := request.params
  match dictGet s.tasks query.id with
  | none =>
      match validateJSONRPCError notFoundErrorDict with
      | Except.error e => (Except.error (PyErr.validationError e), s)
      | Except.ok err => (Except.ok ⟨request.id, none, some err⟩, s)
  | some task =>
      match query.historyLength with
      | some n =>
          let sliced := pySliceLast n (heapGet s.heap task.historyRef)
          let (ref, heap') := heapAlloc s.heap sliced
          (Except.ok ⟨request.id, some { task with historyRef := ref }, none⟩,
           ⟨heap', s.tasks⟩)
      | none =>
          (Except.ok ⟨request.id, some task, none⟩, s)

/-- src/my_agents/openai_sdk/task_manager.py AgentTaskManager._get_user_query:
`request.params.message.parts[0].text`; an empty parts list raises IndexError. -/
def get_user_query (request : SendTaskRequest) : Except PyErr String :=
  match request.params.message.parts with
  | [] => Except.error PyErr.indexError
  | p :: _ => Except.ok p.text

/-- src/my_agents/openai_sdk/task_manager.py AgentTaskManager.on_send_task,
parametrized by the external responder (`self.agent.invoke`, which may fail):
upsert the task, extract the query text, await the responder, then under the
lock set the status to COMPLETED, append the agent message to the history
list, and return the task.  No exception is caught at this layer. -/
def on_send_task (respond : String → String → Except String String)
    (request : SendTaskRequest) (s : MState) :
    Except PyErr SendTaskResponse × MState :=
  let u := upsert_task request.params s
  let task := u.1
  let s1 := u.2
  match get_user_query request with
  | Except.error e => (Except.error e, s1)
  | Except.ok query =>
      match respond query request.params.sessionId with
      | Except.error e => (Except.error (PyErr.agentError e), s1)
      | Except.ok result_text =>
          let agent_message : Message := ⟨"agent", [⟨result_text⟩]⟩
          let task' := { task with status := ⟨TaskState.COMPLETED⟩ }
          let heap' := heapSet s1.heap task.historyRef
            (heapGet s1.heap task.historyRef ++ [agent_message])
          (Except.ok ⟨request.id, some task', none⟩,
           ⟨heap', dictSet s1.tasks task'.id task'⟩)

/-- Encoding of an RpcId as JSON. -/
def rpcIdToJValue : RpcId → JValue
  | RpcId.num n => JValue.num n
  | RpcId.str s => JValue.str s

/-- `model_dump` of an optional field as an envelope member: with
exclude_none a None field is omitted; without it the member is emitted as
null. -/
def optMember (excludeNone : Bool) (name : String) : Option JValue → List (String × JValue)
  | none => if excludeNone then [] else [(name, JValue.null)]
  | some v => [(name, v)]

/-- Wire name of a TaskState (models/task.py is not under src/; the names
follow the spec; only the member structure of dumps is relied on below). -/
def taskStateName : TaskState → String
  | TaskState.SUBMITTED => "submitted"
  | TaskState.WORKING => "working"
  | TaskState.COMPLETED => "completed"
  | TaskState.FAILED => "failed"
  | TaskState.CANCELED => "canceled"

/-- JSON encoding of a Message. -/
def dumpMessage (m : Message) : JValue :=
  JValue.obj [("role", JValue.str m.role),
              ("parts", JValue.arr (List.map (fun p => JValue.obj [("text", JValue.str p.text)]) m.parts))]

/-- JSON encoding of a Task, resolving its history through the heap. -/
def dumpTask (excludeNone : Bool) (h : Heap) (t : Task) : JValue :=
  JValue.obj
    ([("id", JValue.str t.id)]
      ++ optMember excludeNone "sessionId" (Option.map JValue.str t.sessionId)
      ++ [("status", JValue.obj [("state", JValue.str (taskStateName t.status.state))]),
          ("history", JValue.arr (List.map dumpMessage (heapGet h t.historyRef)))])

/-- JSON encoding of a JSONRPCError (fields code, message, data). -/
def dumpError (excludeNone : Bool) (e : JSONRPCError) : JValue :=
  JValue.obj
    ([("code", JValue.num e.code), ("message", JValue.str e.message)]
      ++ optMember excludeNone "data" e.data)

/-- `model_dump` of a JSONRPCResponse-shaped envelope: members jsonrpc, id,
result, error in field order; with `excludeNone` the None members are dropped,
otherwise they are emitted as null. -/
def dumpEnvelope (excludeNone : Bool) (id : Option RpcId)
    (result : Option JValue) (error : Option JValue) : List (String × JValue) :=
  [("jsonrpc", JValue.str "2.0")]
    ++ optMember excludeNone "id" (Option.map rpcIdToJValue id)
    ++ optMember excludeNone "result" result
    ++ optMember excludeNone "error" error

/-- An HTTP response emitted by the server: status code and the JSON body
(the members of the serialized envelope object). -/
structure HttpResponse where
  statusCode : Nat
  content : List (String × JValue)

/-- src/server/server.py generic failure path:
`JSONResponse(JSONRPCResponse(id=None, error=InternalError(message=str(e))).model_dump(), status_code=400)`.
InternalError has code -32603; `model_dump()` here runs without exclude_none,
so the null id and null result members are emitted. -/
def internalErrorResponse (msg : String) : HttpResponse :=
  ⟨400, dumpEnvelope false none none (some (dumpError false ⟨-32603, msg, none⟩))⟩

/-- src/server/server.py A2AServer._create_response: a JSONRPCResponse is
serialized with `model_dump(exclude_none=True)` and returned with the default
HTTP status 200. -/
def create_response (h : Heap) (resp : SendTaskResponse) : HttpResponse :=
  ⟨200, dumpEnvelope true resp.id (Option.map (dumpTask true h) resp.result)
          (Option.map (dumpError true) resp.error)⟩

/-- The outcome of `request.json()` followed by `A2ARequest.validate_python`:
the body may fail JSON parsing, may parse but fail validation against the
discriminated union (e.g. method "tasks/delete"), or validate as one of the
two union members SendTaskRequest / GetTaskRequest (src/models/request.py). -/
inductive ParsedBody where
  | parseError (msg : String)
  | validateError (msg : String)
  | send (r : SendTaskRequest)
  | get (r : GetTaskRequest)

/-- Exception text carried into `InternalError(message=str(e))`. -/
def pyErrMessage : PyErr → String
  | PyErr.indexError => "list index out of range"
  | PyErr.validationError m => m
  | PyErr.agentError m => m

/-- src/server/server.py A2AServer._handle_request: decode and validate the
body; dispatch a SendTaskRequest to `on_send_task`; any other validated
request raises `ValueError("Unsupported A2A method: ...")`; on success wrap
the result with `_create_response`; any exception on the way is converted to
the generic id=null, code -32603, HTTP 400 error response. -/
def handle_request (respond : String → String → Except String String)
    (body : ParsedBody) (s : MState) : HttpResponse × MState :=
  match body with
  | ParsedBody.parseError msg => (internalErrorResponse msg, s)
  | ParsedBody.validateError msg => (internalErrorResponse msg, s)
  | ParsedBody.get _ =>
      (internalErrorResponse "Unsupported A2A method: <class 'models.request.GetTaskRequest'>", s)
  | ParsedBody.send r =>
      match on_send_task respond r s with
      | (Except.ok resp, s') => (create_response s'.heap resp, s')
      | (Except.error e, s') => (internalErrorResponse (pyErrMessage e), s')

/-- The `code` member of the `error` member of a response body, when present. -/
def contentErrorCode (c : List (String × JValue)) : Option Int :=
  match List.lookup "error" c with
  | some (JValue.obj ms) =>
      match List.lookup "code" ms with
      | some (JValue.num n) => some n
      | _ => none
  | _ => none

/-- Whether member `k` is present in the body with the literal value null. -/
def memberIsNull (c : List (String × JValue)) (k : String) : Bool :=
  match List.lookup k c with
  | some JValue.null => true
  | _ => false

/-- Whether member `k` is present in the body with a non-null value. -/
def memberNonNull (c : List (String × JValue)) (k : String) : Bool :=
  match List.lookup k c with
  | some v => !(JValue.isNull v)
  | none => false

/-- The result field of a successful get, for stating theorems about it. -/
def getResult : Except PyErr GetTaskResponse → Option Task
  | Except.ok r => r.result
  | Except.error _ => none

/-- The raised exception of a manager call, if any. -/
def raisedErr {α : Type} : Except PyErr α → Option PyErr
  | Except.error e => some e
  | Except.ok _ => none

/-- A send dispatch that reaches `_create_response`: the body validated as a
SendTaskRequest and `on_send_task` returned without raising. -/
def dispatchOk (respond : String → String → Except String String)
    (body : ParsedBody) (s : MState) : Prop :=
  ∃ r resp s', body = ParsedBody.send r
    ∧ on_send_task respond r s = (Except.ok resp, s')

/-- Sample user message for the concrete scenarios. -/
def mHello : Message := ⟨"user", [⟨"hello"⟩]⟩

/-- A second sample user message. -/
def mAgain : Message := ⟨"user", [⟨"again"⟩]⟩

/-- Sample stored task with its history at heap address 0. -/
def sampleTask : Task := ⟨"t1", none, ⟨TaskState.SUBMITTED⟩, 0⟩

/-- Sample store holding one task "t1" whose history is `[mHello]`. -/
def sampleState : MState := ⟨[[mHello]], [("t1", sampleTask)]⟩

/-- A responder stubbed to always reply "hi there". -/
def respondHi : String → String → Except String String :=
  fun _ _ => Except.ok "hi there"

lemma getD_append_length {α : Type} (l : List α) (x d : α) :
    List.getD (l ++ [x]) l.length d = x := by
  induction l with
  | nil => rfl
  | cons a t ih => simp [ih]

lemma getD_append_lt {α : Type} (l : List α) (x d : α) (i : Nat) (h : i < l.length) :
    List.getD (l ++ [x]) i d = List.getD l i d := by
  induction l generalizing i with
  | nil => simp at h
  | cons a t ih =>
    cases i with
    | zero => rfl
    | succ j =>
      simp only [List.cons_append, List.getD_cons_succ]
      exact ih j (by simpa using h)

lemma getD_set_eq {α : Type} (l : List α) (i : Nat) (v d : α) (h : i < l.length) :
    List.getD (List.set l i v) i d = v := by
  induction l generalizing i with
  | nil => simp at h
  | cons a t ih =>
    cases i with
    | zero => rfl
    | succ j =>
      simp only [List.set_cons_succ, List.getD_cons_succ]
      exact ih j (by simpa using h)

lemma dictGet_dictSet_self {α : Type} (l : List (String × α)) (k : String) (v : α) :
    dictGet (dictSet l k v) k = some v := by
  induction l with
  | nil => simp [dictGet, dictSet]
  | cons p t ih =>
    by_cases h : p.1 = k
    · simp [dictGet, dictSet, h]
    · simp [dictGet, dictSet, h, ih]

lemma internal_statusCode (m : String) : (internalErrorResponse m).statusCode = 400 := rfl

lemma internal_code (m : String) :
    contentErrorCode (internalErrorResponse m).content = some (-32603) := rfl

lemma internal_id_null (m : String) :
    memberIsNull (internalErrorResponse m).content "id" = true := rfl

lemma internal_result_null (m : String) :
    memberNonNull (internalErrorResponse m).content "result" = false := rfl

/-- C3. For a task id not yet in the store, handling a send request whose
message is m against a responder replying r completes the task: the response
carries the task with status COMPLETED, and both the returned task and the
stored one have history exactly `[m, agent(r)]`. -/
theorem c3_fresh_send_completes_with_two_messages
    (respond : String → String → Except String String)
    (req : SendTaskRequest) (s : MState) (q r : String)
    (hfresh : dictGet s.tasks req.params.id = none)
    (hq : get_user_query req = Except.ok q)
    (hresp : respond q req.params.sessionId = Except.ok r) :
    (on_send_task respond req s).1
        = Except.ok ⟨req.id, some ⟨req.params.id, none, ⟨TaskState.COMPLETED⟩, s.heap.length⟩, none⟩
    ∧ historyView (on_send_task respond req s).2
        ⟨req.params.id, none, ⟨TaskState.COMPLETED⟩, s.heap.length⟩
        = [req.params.message, ⟨"agent", [⟨r⟩]⟩]
    ∧ dictGet (on_send_task respond req s).2.tasks req.params.id
        = some ⟨req.params.id, none, ⟨TaskState.COMPLETED⟩, s.heap.length⟩ := by
  simp only [on_send_task, upsert_task, hfresh, hq, hresp, heapAlloc]
  refine ⟨by trivial, ?_, ?_⟩
  · simp only [historyView, heapGet, heapSet]
    have h1 : List.getD (s.heap ++ [[req.params.message]]) s.heap.length [] = [req.params.message] :=
      getD_append_length _ _ _
    rw [h1]
    exact getD_set_eq _ _ _ _ (by simp)
  · exact dictGet_dictSet_self _ _ _

/-- C3 witness: the concrete scenario of the spec, message "hello" and a
responder stubbed to "hi there", on the empty store. -/
theorem c3_witness :
    dictGet (MState.mk [] []).tasks "t1" = none
    ∧ get_user_query ⟨some (RpcId.num 1), ⟨"t1", "s1", mHello⟩⟩ = Except.ok "hello"
    ∧ respondHi "hello" "s1" = Except.ok "hi there"
    ∧ ((on_send_task respondHi ⟨some (RpcId.num 1), ⟨"t1", "s1", mHello⟩⟩ (MState.mk [] [])).1
        = Except.ok ⟨some (RpcId.num 1), some ⟨"t1", none, ⟨TaskState.COMPLETED⟩, 0⟩, none⟩
      ∧ historyView (on_send_task respondHi ⟨some (RpcId.num 1), ⟨"t1", "s1", mHello⟩⟩ (MState.mk [] [])).2
          ⟨"t1", none, ⟨TaskState.COMPLETED⟩, 0⟩
          = [mHello, ⟨"agent", [⟨"hi there"⟩]⟩]
      ∧ dictGet (on_send_task respondHi ⟨some (RpcId.num 1), ⟨"t1", "s1", mHello⟩⟩ (MState.mk [] [])).2.tasks "t1"
          = some ⟨"t1", none, ⟨TaskState.COMPLETED⟩, 0⟩) :=
  ⟨rfl, rfl, rfl,
    c3_fresh_send_completes_with_two_messages respondHi
      ⟨some (RpcId.num 1), ⟨"t1", "s1", mHello⟩⟩ (MState.mk [] []) "hello" "hi there"
      rfl rfl rfl⟩

/-- C4. For a task id already in the store, a second send appends exactly the
request's user message and then exactly one agent message: the stored history
becomes the old history followed by those two messages (so its length grows by
exactly 2 and every pre-existing entry is unchanged and in place), and the
stored task is the old record with status COMPLETED. -/
theorem c4_existing_send_appends_two_messages
    (respond : String → String → Except String String)
    (req : SendTaskRequest) (s : MState) (t0 : Task) (q r : String)
    (hex : dictGet s.tasks req.params.id = some t0)
    (hid : t0.id = req.params.id)
    (href : t0.historyRef < s.heap.length)
    (hq : get_user_query req = Except.ok q)
    (hresp : respond q req.params.sessionId = Except.ok r) :
    (on_send_task respond req s).1
        = Except.ok ⟨req.id, some { t0 with status := ⟨TaskState.COMPLETED⟩ }, none⟩
    ∧ historyView (on_send_task respond req s).2 t0
        = historyView s t0 ++ [req.params.message, ⟨"agent", [⟨r⟩]⟩]
    ∧ (historyView (on_send_task respond req s).2 t0).length
        = (historyView s t0).length + 2
    ∧ dictGet (on_send_task respond req s).2.tasks req.params.id
        = some { t0 with status := ⟨TaskState.COMPLETED⟩ } := by
  have hfinal : historyView (on_send_task respond req s).2 t0
      = historyView s t0 ++ [req.params.message, ⟨"agent", [⟨r⟩]⟩] := by
    simp only [on_send_task, upsert_task, hex, hq, hresp, historyView, heapGet, heapSet]
    have h1 : List.getD (List.set s.heap t0.historyRef
        (List.getD s.heap t0.historyRef [] ++ [req.params.message])) t0.historyRef []
        = List.getD s.heap t0.historyRef [] ++ [req.params.message] :=
      getD_set_eq _ _ _ _ href
    rw [h1]
    have h2 : List.getD (List.set (List.set s.heap t0.historyRef
        (List.getD s.heap t0.historyRef [] ++ [req.params.message])) t0.historyRef
        ((List.getD s.heap t0.historyRef [] ++ [req.params.message]) ++ [⟨"agent", [⟨r⟩]⟩]))
        t0.historyRef []
        = (List.getD s.heap t0.historyRef [] ++ [req.params.message]) ++ [⟨"agent", [⟨r⟩]⟩] :=
      getD_set_eq _ _ _ _ (by simpa using href)
    rw [h2, List.append_assoc]
    rfl
  refine ⟨?_, hfinal, by rw [hfinal]; simp, ?_⟩
  · simp only [on_send_task, upsert_task, hex, hq, hresp]
  · simp only [on_send_task, upsert_task, hex, hq, hresp]
    rw [hid]
    exact dictGet_dictSet_self _ _ _

/-- C4 witness: a second send on the sample store (task "t1", history
`[mHello]`) with message `mAgain` and the stubbed responder. -/
theorem c4_witness :
    dictGet sampleState.tasks "t1" = some sampleTask
    ∧ sampleTask.id = "t1"
    ∧ sampleTask.historyRef < sampleState.heap.length
    ∧ get_user_query ⟨some (RpcId.num 2), ⟨"t1", "s1", mAgain⟩⟩ = Except.ok "again"
    ∧ respondHi "again" "s1" = Except.ok "hi there"
    ∧ ((on_send_task respondHi ⟨some (RpcId.num 2), ⟨"t1", "s1", mAgain⟩⟩ sampleState).1
        = Except.ok ⟨some (RpcId.num 2), some { sampleTask with status := ⟨TaskState.COMPLETED⟩ }, none⟩
      ∧ historyView (on_send_task respondHi ⟨some (RpcId.num 2), ⟨"t1", "s1", mAgain⟩⟩ sampleState).2 sampleTask
          = historyView sampleState sampleTask ++ [mAgain, ⟨"agent", [⟨"hi there"⟩]⟩]
      ∧ (historyView (on_send_task respondHi ⟨some (RpcId.num 2), ⟨"t1", "s1", mAgain⟩⟩ sampleState).2 sampleTask).length
          = (historyView sampleState sampleTask).length + 2
      ∧ dictGet (on_send_task respondHi ⟨some (RpcId.num 2), ⟨"t1", "s1", mAgain⟩⟩ sampleState).2.tasks "t1"
          = some { sampleTask with status := ⟨TaskState.COMPLETED⟩ }) :=
  ⟨rfl, rfl, by decide, rfl, rfl,
    c4_existing_send_appends_two_messages respondHi
      ⟨some (RpcId.num 2), ⟨"t1", "s1", mAgain⟩⟩ sampleState sampleTask "again" "hi there"
      rfl rfl (by decide) rfl rfl⟩

/-- C6. When the responder call fails, `on_send_task` does not catch the
failure: the call returns the raised error, the stored task keeps status
SUBMITTED with only the user message in its history (no agent message and no
FAILED transition), and the router converts the escaped exception into the
generic internal-error response (HTTP 400, code -32603, id null). -/
theorem c6_responder_failure_propagates_task_left_submitted
    (respond : String → String → Except String String)
    (req : SendTaskRequest) (s : MState) (q e : String)
    (hfresh : dictGet s.tasks req.params.id = none)
    (hq : get_user_query req = Except.ok q)
    (hfail : respond q req.params.sessionId = Except.error e) :
    (on_send_task respond req s).1 = Except.error (PyErr.agentError e)
    ∧ dictGet (on_send_task respond req s).2.tasks req.params.id
        = some ⟨req.params.id, none, ⟨TaskState.SUBMITTED⟩, s.heap.length⟩
    ∧ historyView (on_send_task respond req s).2
        ⟨req.params.id, none, ⟨TaskState.SUBMITTED⟩, s.heap.length⟩
        = [req.params.message]
    ∧ (handle_request respond (ParsedBody.send req) s).1.statusCode = 400
    ∧ contentErrorCode (handle_request respond (ParsedBody.send req) s).1.content = some (-32603)
    ∧ memberIsNull (handle_request respond (ParsedBody.send req) s).1.content "id" = true := by
  have hsend : on_send_task respond req s
      = (Except.error (PyErr.agentError e),
         MState.mk (s.heap ++ [[req.params.message]])
           (dictSet s.tasks req.params.id ⟨req.params.id, none, ⟨TaskState.SUBMITTED⟩, s.heap.length⟩)) := by
    simp only [on_send_task, upsert_task, hfresh, hq, hfail, heapAlloc]
  refine ⟨by rw [hsend], ?_, ?_, ?_, ?_, ?_⟩
  · rw [hsend]
    exact dictGet_dictSet_self _ _ _
  · rw [hsend]
    simp only [historyView, heapGet]
    exact getD_append_length _ _ _
  · simp only [handle_request, hsend, internal_statusCode]
  · simp only [handle_request, hsend, internal_code]
  · simp only [handle_request, hsend, internal_id_null]

/-- C6 witness: a responder that always fails, on a fresh task id. -/
theorem c6_witness :
    dictGet (MState.mk [] []).tasks "t1" = none
    ∧ get_user_query ⟨some (RpcId.num 1), ⟨"t1", "s1", mHello⟩⟩ = Except.ok "hello"
    ∧ (fun (_ : String) (_ : String) => (Except.error "boom" : Except String String)) "hello" "s1"
        = Except.error "boom"
    ∧ ((on_send_task (fun _ _ => Except.error "boom") ⟨some (RpcId.num 1), ⟨"t1", "s1", mHello⟩⟩ (MState.mk [] [])).1
        = Except.error (PyErr.agentError "boom")
      ∧ dictGet (on_send_task (fun _ _ => Except.error "boom") ⟨some (RpcId.num 1), ⟨"t1", "s1", mHello⟩⟩ (MState.mk [] [])).2.tasks "t1"
          = some ⟨"t1", none, ⟨TaskState.SUBMITTED⟩, 0⟩
      ∧ historyView (on_send_task (fun _ _ => Except.error "boom") ⟨some (RpcId.num 1), ⟨"t1", "s1", mHello⟩⟩ (MState.mk [] [])).2
          ⟨"t1", none, ⟨TaskState.SUBMITTED⟩, 0⟩ = [mHello]
      ∧ (handle_request (fun _ _ => Except.error "boom") (ParsedBody.send ⟨some (RpcId.num 1), ⟨"t1", "s1", mHello⟩⟩) (MState.mk [] [])).1.statusCode = 400
      ∧ contentErrorCode (handle_request (fun _ _ => Except.error "boom") (ParsedBody.send ⟨some (RpcId.num 1), ⟨"t1", "s1", mHello⟩⟩) (MState.mk [] [])).1.content = some (-32603)
      ∧ memberIsNull (handle_request (fun _ _ => Except.error "boom") (ParsedBody.send ⟨some (RpcId.num 1), ⟨"t1", "s1", mHello⟩⟩) (MState.mk [] [])).1.content "id" = true) :=
  ⟨rfl, rfl, rfl,
    c6_responder_failure_propagates_task_left_submitted (fun _ _ => Except.error "boom")
      ⟨some (RpcId.num 1), ⟨"t1", "s1", mHello⟩⟩ (MState.mk [] []) "hello" "boom"
      rfl rfl rfl⟩

/-- C10. A send whose message has an empty parts list raises IndexError in
`_get_user_query`, but only after `upsert_task` has already run: the call
returns the error with the store in the post-upsert state, in which the task
exists (freshly created with the empty-parts message, or with that message
appended to its old history); the router then converts the escaped IndexError
into the generic internal-error response, so the caller sees only a generic
error while the store was mutated. -/
theorem c10_empty_parts_index_error_after_store_mutation
    (respond : String → String → Except String String)
    (req : SendTaskRequest) (s : MState)
    (hempty : req.params.message.parts = []) :
    on_send_task respond req s = (Except.error PyErr.indexError, (upsert_task req.params s).2)
    ∧ (dictGet (upsert_task req.params s).2.tasks req.params.id).isSome = true
    ∧ (dictGet s.tasks req.params.id = none →
        dictGet (upsert_task req.params s).2.tasks req.params.id
          = some ⟨req.params.id, none, ⟨TaskState.SUBMITTED⟩, s.heap.length⟩
        ∧ historyView (upsert_task req.params s).2
            ⟨req.params.id, none, ⟨TaskState.SUBMITTED⟩, s.heap.length⟩
            = [req.params.message])
    ∧ (∀ t, dictGet s.tasks req.params.id = some t → t.historyRef < s.heap.length →
        historyView (upsert_task req.params s).2 t = historyView s t ++ [req.params.message])
    ∧ (handle_request respond (ParsedBody.send req) s).1.statusCode = 400
    ∧ contentErrorCode (handle_request respond (ParsedBody.send req) s).1.content = some (-32603) := by
  have hquery : get_user_query req = Except.error PyErr.indexError := by
    simp [get_user_query, hempty]
  have hsend : on_send_task respond req s
      = (Except.error PyErr.indexError, (upsert_task req.params s).2) := by
    simp only [on_send_task, hquery]
  refine ⟨hsend, ?_, ?_, ?_, ?_, ?_⟩
  · rcases h : dictGet s.tasks req.params.id with _ | t
    · simp only [upsert_task, h, heapAlloc]
      rw [dictGet_dictSet_self]
      rfl
    · simp only [upsert_task, h]
      rfl
  · intro h
    simp only [upsert_task, h, heapAlloc]
    refine ⟨dictGet_dictSet_self _ _ _, ?_⟩
    simp only [historyView, heapGet]
    exact getD_append_length _ _ _
  · intro t h href
    simp only [upsert_task, h, historyView, heapGet, heapSet]
    exact getD_set_eq _ _ _ _ href
  · simp only [handle_request, hsend, internal_statusCode]
  · simp only [handle_request, hsend, internal_code]

/-- C10 witness: a send with an empty parts list on the empty store. -/
theorem c10_witness :
    (Message.mk "user" []).parts = []
    ∧ (on_send_task respondHi ⟨some (RpcId.num 1), ⟨"t1", "s1", ⟨"user", []⟩⟩⟩ (MState.mk [] [])
        = (Except.error PyErr.indexError,
           (upsert_task (TaskSendParams.mk "t1" "s1" ⟨"user", []⟩) (MState.mk [] [])).2)
      ∧ (dictGet (upsert_task (TaskSendParams.mk "t1" "s1" ⟨"user", []⟩) (MState.mk [] [])).2.tasks "t1").isSome = true
      ∧ (dictGet (MState.mk [] [] : MState).tasks "t1" = none →
          dictGet (upsert_task (TaskSendParams.mk "t1" "s1" ⟨"user", []⟩) (MState.mk [] [])).2.tasks "t1"
            = some ⟨"t1", none, ⟨TaskState.SUBMITTED⟩, 0⟩
          ∧ historyView (upsert_task (TaskSendParams.mk "t1" "s1" ⟨"user", []⟩) (MState.mk [] [])).2
              ⟨"t1", none, ⟨TaskState.SUBMITTED⟩, 0⟩ = [⟨"user", []⟩])
      ∧ (∀ t, dictGet (MState.mk [] [] : MState).tasks "t1" = some t → t.historyRef < (MState.mk [] [] : MState).heap.length →
          historyView (upsert_task (TaskSendParams.mk "t1" "s1" ⟨"user", []⟩) (MState.mk [] [])).2 t
            = historyView (MState.mk [] []) t ++ [⟨"user", []⟩])
      ∧ (handle_request respondHi (ParsedBody.send ⟨some (RpcId.num 1), ⟨"t1", "s1", ⟨"user", []⟩⟩⟩) (MState.mk [] [])).1.statusCode = 400
      ∧ contentErrorCode (handle_request respondHi (ParsedBody.send ⟨some (RpcId.num 1), ⟨"t1", "s1", ⟨"user", []⟩⟩⟩) (MState.mk [] [])).1.content = some (-32603)) :=
  ⟨rfl,
    c10_empty_parts_index_error_after_store_mutation respondHi
      ⟨some (RpcId.num 1), ⟨"t1", "s1", ⟨"user", []⟩⟩⟩ (MState.mk [] []) rfl⟩

/-- C2 (code bug). With history limit 0 on a task whose stored history is the
single message `[mHello]`, `on_get_task` returns the task with its FULL
history, not an empty one: the source slices with `history[-0:]`, and in
Python `-0` is `0`, so the slice is the whole list.  The claim (and the
spec, and the comment in the source reading "Get last N messages") require an
empty history here. -/
theorem c2_history_limit_zero_returns_full_history :
    getResult (on_get_task ⟨some (RpcId.num 1), ⟨"t1", some 0⟩⟩ sampleState).1
        = some ⟨"t1", none, ⟨TaskState.SUBMITTED⟩, 1⟩
    ∧ historyView (on_get_task ⟨some (RpcId.num 1), ⟨"t1", some 0⟩⟩ sampleState).2
        ⟨"t1", none, ⟨TaskState.SUBMITTED⟩, 1⟩ = [mHello]
    ∧ ((historyView (on_get_task ⟨some (RpcId.num 1), ⟨"t1", some 0⟩⟩ sampleState).2
        ⟨"t1", none, ⟨TaskState.SUBMITTED⟩, 1⟩).isEmpty = false) := by
  refine ⟨rfl, rfl, by decide⟩

/-- C5 (code bug). A get for an id not in the store does not return the
intended structured "Task not found" response: the source constructs
`GetTaskResponse(id=..., error=dict with only a message)` while
models/json_rpc.py JSONRPCError requires a `code : int` with no default, so
pydantic raises ValidationError out of `on_get_task`. -/
theorem c5_get_unknown_id_raises_validation_error :
    raisedErr (on_get_task ⟨some (RpcId.num 7), ⟨"nope", none⟩⟩ (MState.mk [] [])).1
        = some (PyErr.validationError "1 validation error for JSONRPCError: code Field required")
    ∧ (on_get_task ⟨some (RpcId.num 7), ⟨"nope", none⟩⟩ (MState.mk [] [])).2.tasks = [] := by
  exact ⟨rfl, rfl⟩

/-- C9 counterexample. A get without a history limit on the sample store
returns a copy whose history is the same live list as the stored task's
(`model_copy` is shallow and the no-limit branch keeps the list): after a
later send appends to the task, the previously returned copy's history has
changed from `[mHello]` to three messages, contradicting the claim that
subsequent store mutations never change a previously returned copy. -/
theorem c9_counterexample_copy_changes_after_send :
    getResult (on_get_task ⟨some (RpcId.num 2), ⟨"t1", none⟩⟩ sampleState).1 = some sampleTask
    ∧ (on_get_task ⟨some (RpcId.num 2), ⟨"t1", none⟩⟩ sampleState).2 = sampleState
    ∧ historyView sampleState sampleTask = [mHello]
    ∧ historyView (on_send_task respondHi ⟨some (RpcId.num 3), ⟨"t1", "s1", mAgain⟩⟩ sampleState).2
        sampleTask = [mHello, mAgain, ⟨"agent", [⟨"hi there"⟩]⟩]
    ∧ ((historyView (on_send_task respondHi ⟨some (RpcId.num 3), ⟨"t1", "s1", mAgain⟩⟩ sampleState).2
        sampleTask == [mHello]) = false) := by
  refine ⟨rfl, ?_, rfl, by decide, by decide⟩
  rfl

/-- C9 as amended. The get path returns a fresh Task record (so reassigning
fields of the copy never reaches the store), and when a history limit is
supplied the copy's history is a freshly allocated list, disjoint from the
stored one; but when the limit is absent the copy carries the very same
history address as the stored task, so in-place appends to the stored history
are visible through the copy (and vice versa). -/
theorem c9_copy_isolation_amended
    (req : GetTaskRequest) (s : MState) (t : Task)
    (hex : dictGet s.tasks req.params.id = some t)
    (href : t.historyRef < s.heap.length) :
    (req.params.historyLength = none →
        on_get_task req s = (Except.ok ⟨req.id, some t, none⟩, s))
    ∧ (∀ n, req.params.historyLength = some n →
        (on_get_task req s).1
            = Except.ok ⟨req.id, some { t with historyRef := s.heap.length }, none⟩
        ∧ s.heap.length ≠ t.historyRef
        ∧ historyView (on_get_task req s).2 { t with historyRef := s.heap.length }
            = pySliceLast n (historyView s t)
        ∧ historyView (on_get_task req s).2 t = historyView s t) := by
  constructor
  · intro hnone
    simp only [on_get_task, hex, hnone]
  · intro n hsome
    refine ⟨?_, Nat.ne_of_gt href, ?_, ?_⟩
    · simp only [on_get_task, hex, hsome, heapAlloc]
    · simp only [on_get_task, hex, hsome, heapAlloc, historyView, heapGet]
      exact getD_append_length _ _ _
    · simp only [on_get_task, hex, hsome, heapAlloc, historyView, heapGet]
      exact getD_append_lt _ _ _ _ href

/-- C9 amended witness: both branches at the sample store, with limit 1 for
the supplied-limit branch. -/
theorem c9_witness :
    dictGet sampleState.tasks "t1" = some sampleTask
    ∧ sampleTask.historyRef < sampleState.heap.length
    ∧ (((GetTaskRequest.mk (some (RpcId.num 2)) ⟨"t1", some 1⟩).params.historyLength = none →
        on_get_task ⟨some (RpcId.num 2), ⟨"t1", some 1⟩⟩ sampleState
          = (Except.ok ⟨some (RpcId.num 2), some sampleTask, none⟩, sampleState))
      ∧ (∀ n, (GetTaskRequest.mk (some (RpcId.num 2)) ⟨"t1", some 1⟩).params.historyLength = some n →
          (on_get_task ⟨some (RpcId.num 2), ⟨"t1", some 1⟩⟩ sampleState).1
              = Except.ok ⟨some (RpcId.num 2), some { sampleTask with historyRef := sampleState.heap.length }, none⟩
          ∧ sampleState.heap.length ≠ sampleTask.historyRef
          ∧ historyView (on_get_task ⟨some (RpcId.num 2), ⟨"t1", some 1⟩⟩ sampleState).2
              { sampleTask with historyRef := sampleState.heap.length }
              = pySliceLast n (historyView sampleState sampleTask)
          ∧ historyView (on_get_task ⟨some (RpcId.num 2), ⟨"t1", some 1⟩⟩ sampleState).2 sampleTask
              = historyView sampleState sampleTask)) :=
  ⟨rfl, by decide,
    c9_copy_isolation_amended ⟨some (RpcId.num 2), ⟨"t1", some 1⟩⟩ sampleState sampleTask
      rfl (by decide)⟩

/-- Any result of `on_send_task` that is ok has the shape built in its last
step: in particular its error field is None. -/
lemma on_send_task_ok_error_none
    (respond : String → String → Except String String)
    (r : SendTaskRequest) (s : MState) (resp : SendTaskResponse) (s' : MState)
    (h : on_send_task respond r s = (Except.ok resp, s')) : resp.error = none := by
  simp only [on_send_task] at h
  rcases hq : get_user_query r with e | q
  · simp [hq] at h
  · simp only [hq] at h
    rcases hr : respond q r.params.sessionId with e | rt
    · simp [hr] at h
    · simp only [hr, Prod.mk.injEq, Except.ok.injEq] at h
      rw [← h.1]

/-- C1 (code bug). A well-formed tasks/get request whose task id exists in the
store is NOT dispatched to `on_get_task`: the router handles only
SendTaskRequest and raises ValueError("Unsupported A2A method: ...") for the
validated GetTaskRequest, so the server answers with the generic error
envelope (HTTP 400, id null, code -32603) instead of a result response
carrying the request id, and the store is untouched. -/
theorem c1_get_request_not_dispatched :
    (dictGet sampleState.tasks "t1").isSome = true
    ∧ (handle_request respondHi (ParsedBody.get ⟨some (RpcId.num 1), ⟨"t1", none⟩⟩) sampleState).1.statusCode = 400
    ∧ contentErrorCode (handle_request respondHi (ParsedBody.get ⟨some (RpcId.num 1), ⟨"t1", none⟩⟩) sampleState).1.content
        = some (-32603)
    ∧ memberIsNull (handle_request respondHi (ParsedBody.get ⟨some (RpcId.num 1), ⟨"t1", none⟩⟩) sampleState).1.content "id"
        = true
    ∧ (handle_request respondHi (ParsedBody.get ⟨some (RpcId.num 1), ⟨"t1", none⟩⟩) sampleState).2 = sampleState := by
  refine ⟨rfl, rfl, rfl, rfl, rfl⟩

/-- C7. Whenever the pipeline does not complete a send dispatch — the body
failed JSON parsing, failed validation against the discriminated union (for
example method "tasks/delete"), or dispatch raised (unsupported GetTaskRequest,
or an exception out of `on_send_task`) — the server answers HTTP 400 with an
error envelope whose id member is null and whose error code is -32603. -/
theorem c7_failure_path_null_id_internal_error
    (respond : String → String → Except String String)
    (body : ParsedBody) (s : MState)
    (h : ¬ dispatchOk respond body s) :
    (handle_request respond body s).1.statusCode = 400
    ∧ memberIsNull (handle_request respond body s).1.content "id" = true
    ∧ contentErrorCode (handle_request respond body s).1.content = some (-32603) := by
  cases body with
  | parseError msg =>
      exact ⟨internal_statusCode msg, internal_id_null msg, internal_code msg⟩
  | validateError msg =>
      exact ⟨internal_statusCode msg, internal_id_null msg, internal_code msg⟩
  | get r =>
      exact ⟨rfl, rfl, rfl⟩
  | send r =>
      rcases hs : on_send_task respond r s with ⟨res, s'⟩
      cases res with
      | ok resp => exact absurd ⟨r, resp, s', rfl, hs⟩ h
      | error e =>
          simp only [handle_request, hs]
          exact ⟨internal_statusCode _, internal_id_null _, internal_code _⟩

/-- C7 witness: the malformed request of the spec scenario, method
"tasks/delete", which fails union validation. -/
theorem c7_witness :
    (¬ dispatchOk respondHi (ParsedBody.validateError "Input tag 'tasks/delete' found using 'method' does not match any of the expected tags") (MState.mk [] []))
    ∧ ((handle_request respondHi (ParsedBody.validateError "Input tag 'tasks/delete' found using 'method' does not match any of the expected tags") (MState.mk [] [])).1.statusCode = 400
      ∧ memberIsNull (handle_request respondHi (ParsedBody.validateError "Input tag 'tasks/delete' found using 'method' does not match any of the expected tags") (MState.mk [] [])).1.content "id" = true
      ∧ contentErrorCode (handle_request respondHi (ParsedBody.validateError "Input tag 'tasks/delete' found using 'method' does not match any of the expected tags") (MState.mk [] [])).1.content = some (-32603)) :=
  ⟨fun h => by rcases h with ⟨r, resp, s', heq, -⟩; exact ParsedBody.noConfusion heq,
    c7_failure_path_null_id_internal_error respondHi _ (MState.mk [] [])
      (fun h => by rcases h with ⟨r, resp, s', heq, -⟩; exact ParsedBody.noConfusion heq)⟩

/-- C8 counterexample. The envelope emitted on the generic failure path is
serialized with `model_dump()` and no exclude_none, so it carries BOTH a
`result` member (with value null) and an `error` member: at a body that fails
JSON parsing, both members are present, contradicting the claim that every
emitted envelope contains exactly one of the two members. -/
theorem c8_counterexample_failure_envelope_has_both_members :
    (List.lookup "result"
        (handle_request respondHi (ParsedBody.parseError "Expecting value") (MState.mk [] [])).1.content).isSome = true
    ∧ (List.lookup "error"
        (handle_request respondHi (ParsedBody.parseError "Expecting value") (MState.mk [] [])).1.content).isSome = true := by
  exact ⟨rfl, rfl⟩

/-- C8 as amended. In every envelope the server emits, at most one of the
members `result` and `error` carries a non-null value: the success path
(serialized with exclude_none) has no `error` member at all, and the generic
failure path emits `result` only as an explicit null member next to `error`. -/
theorem c8_at_most_one_nonnull_member
    (respond : String → String → Except String String)
    (body : ParsedBody) (s : MState) :
    (memberNonNull (handle_request respond body s).1.content "result"
      && memberNonNull (handle_request respond body s).1.content "error") = false := by
  cases body with
  | parseError msg =>
      rw [show (handle_request respond (ParsedBody.parseError msg) s).1 = internalErrorResponse msg from rfl,
        internal_result_null msg, Bool.false_and]
  | validateError msg =>
      rw [show (handle_request respond (ParsedBody.validateError msg) s).1 = internalErrorResponse msg from rfl,
        internal_result_null msg, Bool.false_and]
  | get r =>
      rw [show (handle_request respond (ParsedBody.get r) s).1
          = internalErrorResponse "Unsupported A2A method: <class 'models.request.GetTaskRequest'>" from rfl,
        internal_result_null, Bool.false_and]
  | send r =>
      rcases hs : on_send_task respond r s with ⟨res, s'⟩
      cases res with
      | error e =>
          rw [show (handle_request respond (ParsedBody.send r) s).1 = internalErrorResponse (pyErrMessage e) by
              simp only [handle_request, hs], internal_result_null, Bool.false_and]
      | ok resp =>
          have herr : resp.error = none := on_send_task_ok_error_none respond r s resp s' hs
          have hresp : (handle_request respond (ParsedBody.send r) s).1 = create_response s'.heap resp := by
            simp only [handle_request, hs]
          have hfalse : memberNonNull (create_response s'.heap resp).content "error" = false := by
            rcases resp with ⟨rid, rres, rerr⟩
            cases herr
            rcases rid with _ | rid <;> rcases rres with _ | rt <;>
              simp [create_response, dumpEnvelope, optMember, memberNonNull, List.lookup]
          rw [hresp, hfalse, Bool.and_false]

end A2A
